import Mathlib

/-!
# Docker volume-driver adapter: routes, capability detection, Mount / Unmount

A shallow embedding of

* `resources.go` (package `voldriver`): the route table, the envelope records,
  the `Driver` / `MatchableDriver` interfaces and `driverWrapper.Matches`;
* `driverhttp/docker_driver_plugin.go`: `DockerDriverPlugin.Matches`,
  `DockerDriverPlugin.Mount`, `DockerDriverPlugin.Unmount`.

Go interfaces are records of methods over an explicit driver state `σ`.  Every
call the adapter makes on an injected collaborator (the driver, the logger) is
appended to a trace, in program order, so that "is called", "is never called"
and "is called before" are statements about that trace.

Type parameters: `σ` the driver's internal state, `L` the values of
`lager.Logger`, `E` the values of `voldriver.Env`, `Opts` the values of
`map[string]interface{}`.
-/

/-! ## Go runtime and library values -/

/-- A Go `error` built by `errors.New`: it carries its message and nothing else. -/
structure GoError where
  msg : String
deriving DecidableEq, Repr

namespace errors

/-- Go `errors.New(text)`. -/
def New (text : String) : GoError := { msg := text }

end errors

namespace strings

/-- Go `strings.HasPrefix(s, prefix)`: `s` begins with `prefix`. -/
def HasPrefix (s pfx : String) : Bool := pfx.data.isPrefixOf s.data

end strings

/-- The values of `context.Context` the adapter creates. -/
inductive Context where
  | Background
  | TODO
deriving DecidableEq, Repr

/-- The outcome of running a Go function body: it returns, or a failed type
assertion `x.(T)` (the form without `ok`) panics. -/
inductive Outcome (α : Type) where
  | ret (a : α)
  | panic
deriving DecidableEq, Repr

/-- Severity of a `lager.Logger` call (`Debug`, `Info`, `Error`). -/
inductive LogLevel where
  | Debug
  | Info
  | Error
deriving DecidableEq, Repr

namespace voldriver

/-! ## `resources.go`: routes -/

/-- One `rata.Route`. -/
structure Route where
  Path : String
  Method : String
  Name : String
deriving DecidableEq, Repr

def ActivateRoute : String := "activate"
def CreateRoute : String := "create"
def GetRoute : String := "get"
def ListRoute : String := "list"
def MountRoute : String := "mount"
def PathRoute : String := "path"
def RemoveRoute : String := "remove"
def UnmountRoute : String := "unmount"
def CapabilitiesRoute : String := "capabilities"

/-- The route table `Routes`, in source order. -/
def Routes : List Route :=
  [ { Path := "/Plugin.Activate", Method := "POST", Name := ActivateRoute },
    { Path := "/VolumeDriver.Create", Method := "POST", Name := CreateRoute },
    { Path := "/VolumeDriver.Get", Method := "POST", Name := GetRoute },
    { Path := "/VolumeDriver.List", Method := "POST", Name := ListRoute },
    { Path := "/VolumeDriver.Mount", Method := "POST", Name := MountRoute },
    { Path := "/VolumeDriver.Path", Method := "POST", Name := PathRoute },
    { Path := "/VolumeDriver.Remove", Method := "POST", Name := RemoveRoute },
    { Path := "/VolumeDriver.Unmount", Method := "POST", Name := UnmountRoute },
    { Path := "/VolumeDriver.Capabilities", Method := "POST", Name := CapabilitiesRoute } ]

/-- The nine operation-name constants of the `const` block, in source order. -/
def routeNames : List String :=
  [ActivateRoute, CreateRoute, GetRoute, ListRoute, MountRoute, PathRoute, RemoveRoute,
    UnmountRoute, CapabilitiesRoute]

/-- All (method, path) pairs the table holds for an operation name. -/
def lookup (name : String) : List (String × String) :=
  (Routes.filter (fun r => r.Name == name)).map (fun r => (r.Method, r.Path))

/-! ## `resources.go`: envelope records -/

structure ActivateResponse where
  Err : String
  Implements : List String
deriving DecidableEq, Repr

structure CreateRequest (Opts : Type) where
  Name : String
  Opts : Opts
deriving DecidableEq, Repr

structure MountRequest where
  Name : String
deriving DecidableEq, Repr

structure MountResponse where
  Err : String
  Mountpoint : String
deriving DecidableEq, Repr

structure VolumeInfo where
  Name : String
  Mountpoint : String
  MountCount : Int
deriving DecidableEq, Repr

structure ListResponse where
  Volumes : List VolumeInfo
  Err : String
deriving DecidableEq, Repr

structure PathRequest where
  Name : String
deriving DecidableEq, Repr

structure PathResponse where
  Err : String
  Mountpoint : String
deriving DecidableEq, Repr

structure UnmountRequest where
  Name : String
deriving DecidableEq, Repr

structure RemoveRequest where
  Name : String
deriving DecidableEq, Repr

structure ErrorResponse where
  Err : String
deriving DecidableEq, Repr

structure GetRequest where
  Name : String
deriving DecidableEq, Repr

structure GetResponse where
  Volume : VolumeInfo
  Err : String
deriving DecidableEq, Repr

structure CapabilityInfo where
  Scope : String
deriving DecidableEq, Repr

structure CapabilitiesResponse where
  Capabilities : CapabilityInfo
deriving DecidableEq, Repr

structure TLSConfig where
  InsecureSkipVerify : Bool
  CAFile : String
  CertFile : String
  KeyFile : String
deriving DecidableEq, Repr

/-! ## `resources.go`: the interfaces -/

/-- Interface `Driver` (with the embedded `Provisioner`): each method reads and
updates the driver's own state `σ`. -/
structure Driver (σ E Opts : Type) where
  Activate : E → σ → ActivateResponse × σ
  Get : E → GetRequest → σ → GetResponse × σ
  List : E → σ → ListResponse × σ
  Mount : E → MountRequest → σ → MountResponse × σ
  Path : E → PathRequest → σ → PathResponse × σ
  Unmount : E → UnmountRequest → σ → ErrorResponse × σ
  Capabilities : E → σ → CapabilitiesResponse × σ
  Create : E → CreateRequest Opts → σ → ErrorResponse × σ
  Remove : E → RemoveRequest → σ → ErrorResponse × σ

/-- Interface `MatchableDriver`: a `Driver` that also has `Matches`. -/
structure MatchableDriver (σ L E Opts : Type) extends Driver σ E Opts where
  Matches : L → String → Option TLSConfig → σ → Bool × σ

/-- The dynamic value behind an interface variable that holds a driver: its
method set either stops at `Driver` or reaches `MatchableDriver`. -/
inductive DriverValue (σ L E Opts : Type) where
  | plain (d : Driver σ E Opts)
  | matchable (m : MatchableDriver σ L E Opts)

/-- Type assertion `v.(Driver)`; `none` when `v` is nil or is not a `Driver`. -/
def asDriver {σ L E Opts : Type} : Option (DriverValue σ L E Opts) → Option (Driver σ E Opts)
  | some (.plain d) => some d
  | some (.matchable m) => some m.toDriver
  | none => none

/-- Type assertion `v.(MatchableDriver)` in its `value, ok` form. -/
def asMatchableDriver {σ L E Opts : Type} :
    Option (DriverValue σ L E Opts) → Option (MatchableDriver σ L E Opts)
  | some (.matchable m) => some m
  | some (.plain _) => none
  | none => none

/-! ## Trace of calls on the injected collaborators -/

/-- A value placed in a `lager.Data` map by the adapter. -/
inductive LogValue where
  | str (s : String)
  | bool (b : Bool)
  | mountRequest (r : MountRequest)
  | mountResponse (r : MountResponse)
deriving DecidableEq, Repr

/-- One call on the wrapped driver, with its arguments. -/
inductive DriverCall (L E Opts : Type) where
  | activate (env : E)
  | get (env : E) (req : GetRequest)
  | list (env : E)
  | mount (env : E) (req : MountRequest)
  | path (env : E) (req : PathRequest)
  | unmount (env : E) (req : UnmountRequest)
  | capabilities (env : E)
  | create (env : E) (req : CreateRequest Opts)
  | remove (env : E) (req : RemoveRequest)
  | matches_ (logger : L) (address : String) (tlsConfig : Option TLSConfig)
deriving DecidableEq, Repr

/-- One observable step of the adapter: a driver call, or a record written
through a logger (`err` is the error argument of `Logger.Error`). -/
inductive Event (L E Opts : Type) where
  | call (c : DriverCall L E Opts)
  | log (logger : L) (level : LogLevel) (action : String) (err : Option GoError)
      (data : List (String × LogValue))
deriving DecidableEq, Repr

/-- The driver's state and everything the adapter did so far. -/
structure World (σ L E Opts : Type) where
  driver : σ
  trace : List (Event L E Opts)

/-- What a method call leaves behind: the Go return value, the receiver after
the call, and the world after the call. -/
structure Result (α P W : Type) where
  ret : α
  self : P
  world : W

/-- The driver calls in a trace, in order. -/
def driverCalls {L E Opts : Type} (t : List (Event L E Opts)) : List (DriverCall L E Opts) :=
  t.filterMap (fun e => match e with
    | .call c => some c
    | .log _ _ _ _ _ => none)

/-- The actions logged in a trace, in order. -/
def loggedActions {L E Opts : Type} (t : List (Event L E Opts)) : List String :=
  t.filterMap (fun e => match e with
    | .call _ => none
    | .log _ _ action _ _ => some action)

namespace World

variable {σ L E Opts : Type}

/-- A call `logger.Debug / Info / Error (action, ...)`. -/
def log (w : World σ L E Opts) (logger : L) (level : LogLevel) (action : String)
    (err : Option GoError) (data : List (String × LogValue)) : World σ L E Opts :=
  { w with trace := w.trace ++ [Event.log logger level action err data] }

/-- A call `driver.Create(env, req)`. -/
def callCreate (w : World σ L E Opts) (d : Driver σ E Opts) (env : E) (req : CreateRequest Opts) :
    ErrorResponse × World σ L E Opts :=
  ((d.Create env req w.driver).1,
   { driver := (d.Create env req w.driver).2,
     trace := w.trace ++ [Event.call (DriverCall.create env req)] })

/-- A call `driver.Mount(env, req)`. -/
def callMount (w : World σ L E Opts) (d : Driver σ E Opts) (env : E) (req : MountRequest) :
    MountResponse × World σ L E Opts :=
  ((d.Mount env req w.driver).1,
   { driver := (d.Mount env req w.driver).2,
     trace := w.trace ++ [Event.call (DriverCall.mount env req)] })

/-- A call `driver.Unmount(env, req)`. -/
def callUnmount (w : World σ L E Opts) (d : Driver σ E Opts) (env : E) (req : UnmountRequest) :
    ErrorResponse × World σ L E Opts :=
  ((d.Unmount env req w.driver).1,
   { driver := (d.Unmount env req w.driver).2,
     trace := w.trace ++ [Event.call (DriverCall.unmount env req)] })

/-- A call `matchableDriver.Matches(logger, address, tlsConfig)`. -/
def callMatches (w : World σ L E Opts) (m : MatchableDriver σ L E Opts) (logger : L)
    (address : String) (tlsConfig : Option TLSConfig) : Bool × World σ L E Opts :=
  ((m.Matches logger address tlsConfig w.driver).1,
   { driver := (m.Matches logger address tlsConfig w.driver).2,
     trace := w.trace ++ [Event.call (DriverCall.matches_ logger address tlsConfig)] })

end World

/-! ## `resources.go`: `driverWrapper` -/

structure driverWrapper (σ L E Opts : Type) where
  Driver : Option (DriverValue σ L E Opts)

namespace driverWrapper

variable {σ L E Opts : Type}

/-- Method `(dw *driverWrapper) Matches(logger, address, tlsConfig)`.
`Session` is the logger's `Session` method. -/
def Matches (Session : L → String → L) (dw : driverWrapper σ L E Opts) (logger : L)
    (address : String) (tlsConfig : Option TLSConfig) (w : World σ L E Opts) :
    Result Bool (driverWrapper σ L E Opts) (World σ L E Opts) :=
  let logger := Session logger "matches"
  let w := w.log logger .Info "start" none []
  let ok := (asMatchableDriver dw.Driver).isSome
  let w := w.log logger .Info "is-matchable" none [("matchable", .bool ok)]
  match asMatchableDriver dw.Driver with
  | some matchableDriver =>
    let (b, w) := w.callMatches matchableDriver logger address tlsConfig
    -- deferred `logger.Info("end")`
    let w := w.log logger .Info "end" none []
    { ret := b, self := dw, world := w }
  | none =>
    -- deferred `logger.Info("end")`
    let w := w.log logger .Info "end" none []
    { ret := false, self := dw, world := w }

end driverWrapper

end voldriver

/-! ## The records of package `volman` used by the adapter -/

namespace volman

structure TLSConfig where
  InsecureSkipVerify : Bool
  CAFile : String
  CertFile : String
  KeyFile : String
deriving DecidableEq, Repr

structure PluginSpec where
  Name : String
  Address : String
  TLSConfig : Option TLSConfig
deriving DecidableEq, Repr

structure MountResponse where
  Path : String
deriving DecidableEq, Repr

end volman

/-! ## `driverhttp/docker_driver_plugin.go` -/

namespace driverhttp

open voldriver

/-- The sanctioned data directory named in `Mount`. -/
def sanctionedDir : String := "/var/vcap/data"

structure DockerDriverPlugin (σ L E Opts : Type) where
  DockerDriver : Option (DriverValue σ L E Opts)

/-- What the adapter takes from its surroundings: the logger's `Session`
method and the package function `NewHttpDriverEnv`. -/
structure Host (L E : Type) where
  Session : L → String → L
  NewHttpDriverEnv : L → Context → E

namespace DockerDriverPlugin

variable {σ L E Opts : Type}

/-- Method `(dw *DockerDriverPlugin) Matches(logger, pluginSpec)`. -/
def Matches (h : Host L E) (dw : DockerDriverPlugin σ L E Opts) (logger : L)
    (pluginSpec : volman.PluginSpec) (w : World σ L E Opts) :
    Result Bool (DockerDriverPlugin σ L E Opts) (World σ L E Opts) :=
  let logger := h.Session logger "matches"
  let w := w.log logger .Info "start" none []
  let ok := (asMatchableDriver dw.DockerDriver).isSome
  let w := w.log logger .Info "matches" none [("is-matchable", .bool ok)]
  let (matched, w) :=
    match asMatchableDriver dw.DockerDriver with
    | some matchableDriver =>
      let tlsConfig : Option voldriver.TLSConfig :=
        match pluginSpec.TLSConfig with
        | some t =>
          some { InsecureSkipVerify := t.InsecureSkipVerify,
                 CAFile := t.CAFile,
                 CertFile := t.CertFile,
                 KeyFile := t.KeyFile }
        | none => none
      w.callMatches matchableDriver logger pluginSpec.Address tlsConfig
    | none => (false, w)
  let w := w.log logger .Info "matches" none [("matches", .bool matched)]
  -- deferred `logger.Info("end")`
  let w := w.log logger .Info "end" none []
  { ret := matched, self := dw, world := w }

/-- Method `(d *DockerDriverPlugin) Mount(logger, pluginId, volumeId, opts)`. -/
def Mount (h : Host L E) (d : DockerDriverPlugin σ L E Opts) (logger : L)
    (pluginId volumeId : String) (opts : Opts) (w : World σ L E Opts) :
    Result (Outcome (volman.MountResponse × Option GoError)) (DockerDriverPlugin σ L E Opts)
      (World σ L E Opts) :=
  let env := h.NewHttpDriverEnv logger Context.TODO
  let w := w.log logger .Debug "creating-volume" none
    [("volumeId", .str volumeId), ("pluginId", .str pluginId)]
  match asDriver d.DockerDriver with
  | none => { ret := .panic, self := d, world := w }
  | some drv =>
    let (response, w) := w.callCreate drv env { Name := volumeId, Opts := opts }
    if response.Err ≠ "" then
      { ret := .ret ({ Path := "" }, some (errors.New response.Err)), self := d, world := w }
    else
      let mountRequest : MountRequest := { Name := volumeId }
      let w := w.log logger .Debug "calling-docker-driver-with-mount-request" none
        [("pluginId", .str pluginId), ("mountRequest", .mountRequest mountRequest)]
      match asDriver d.DockerDriver with
      | none => { ret := .panic, self := d, world := w }
      | some drv =>
        let (mountResponse, w) := w.callMount drv env mountRequest
        let w := w.log logger .Debug "response-from-docker-driver" none
          [("response", .mountResponse mountResponse)]
        let w :=
          if !strings.HasPrefix mountResponse.Mountpoint "/var/vcap/data" then
            w.log logger .Info "invalid-mountpath" none
              [("detail", .str ("Invalid or dangerous mountpath " ++ mountResponse.Mountpoint
                  ++ " outside of /var/vcap/data"))]
          else w
        if mountResponse.Err ≠ "" then
          { ret := .ret ({ Path := "" }, some (errors.New mountResponse.Err)),
            self := d, world := w }
        else
          { ret := .ret ({ Path := mountResponse.Mountpoint }, none), self := d, world := w }

/-- Method `(d *DockerDriverPlugin) Unmount(logger, pluginId, volumeId)`. -/
def Unmount (h : Host L E) (d : DockerDriverPlugin σ L E Opts) (logger : L)
    (_pluginId volumeId : String) (w : World σ L E Opts) :
    Result (Outcome (Option GoError)) (DockerDriverPlugin σ L E Opts) (World σ L E Opts) :=
  let env := h.NewHttpDriverEnv logger Context.TODO
  match asDriver d.DockerDriver with
  | none => { ret := .panic, self := d, world := w }
  | some drv =>
    let (response, w) := w.callUnmount drv env { Name := volumeId }
    if response.Err ≠ "" then
      let err := errors.New response.Err
      let w := w.log logger .Error "unmount-failed" (some err) []
      { ret := .ret (some err), self := d, world := w }
    else
      { ret := .ret none, self := d, world := w }

/-- Method `(d *DockerDriverPlugin) GetImplementation()`. -/
def GetImplementation (d : DockerDriverPlugin σ L E Opts) : Option (DriverValue σ L E Opts) :=
  d.DockerDriver

end DockerDriverPlugin

end driverhttp

/-! ## Concrete collaborators used to exercise the definitions -/

namespace fixture

open voldriver driverhttp

/-- A logger is named by its task; an environment pairs logger and context. -/
def host : Host String (String × Context) :=
  { Session := fun l task => l ++ "." ++ task,
    NewHttpDriverEnv := fun l ctx => (l, ctx) }

/-- A driver with canned answers whose state counts the calls it received. -/
def driver (createErr mountErr mountpoint unmountErr : String) :
    Driver Nat (String × Context) (List (String × String)) :=
  { Activate := fun _ n => ({ Err := "", Implements := ["VolumeDriver"] }, n + 1),
    Get := fun _ q n => ({ Volume := { Name := q.Name, Mountpoint := mountpoint, MountCount := 0 },
                           Err := "" }, n + 1),
    List := fun _ n => ({ Volumes := [], Err := "" }, n + 1),
    Mount := fun _ _ n => ({ Err := mountErr, Mountpoint := mountpoint }, n + 1),
    Path := fun _ _ n => ({ Err := "", Mountpoint := mountpoint }, n + 1),
    Unmount := fun _ _ n => ({ Err := unmountErr }, n + 1),
    Capabilities := fun _ n => ({ Capabilities := { Scope := "local" } }, n + 1),
    Create := fun _ _ n => ({ Err := createErr }, n + 1),
    Remove := fun _ _ n => ({ Err := "" }, n + 1) }

/-- A matchable driver: it matches exactly the address `"unix:///sock"` offered
without TLS. -/
def matchable : MatchableDriver Nat String (String × Context) (List (String × String)) :=
  { driver "" "" "/var/vcap/data/vol" "" with
    Matches := fun _ address tlsConfig n => (address == "unix:///sock" && tlsConfig.isNone, n + 1) }

/-- An adapter around a plain (non-matchable) driver. -/
def plugin (createErr mountErr mountpoint unmountErr : String) :
    DockerDriverPlugin Nat String (String × Context) (List (String × String)) :=
  { DockerDriver := some (.plain (driver createErr mountErr mountpoint unmountErr)) }

/-- An adapter around the matchable driver. -/
def matchablePlugin : DockerDriverPlugin Nat String (String × Context) (List (String × String)) :=
  { DockerDriver := some (.matchable matchable) }

/-- The world before any call. -/
def world0 : World Nat String (String × Context) (List (String × String)) :=
  { driver := 0, trace := [] }

end fixture

/-! ## How `Mount`, `Unmount` and `Matches` unfold -/

namespace driverhttp

open voldriver

section
variable {σ L E Opts : Type}

/-- The events `Mount` emits up to and including the `Create` call. -/
def mountCreateEvents (h : Host L E) (logger : L) (pluginId volumeId : String) (opts : Opts) :
    List (Event L E Opts) :=
  [ Event.log logger .Debug "creating-volume" none
      [("volumeId", .str volumeId), ("pluginId", .str pluginId)],
    Event.call (DriverCall.create (h.NewHttpDriverEnv logger Context.TODO)
      { Name := volumeId, Opts := opts }) ]

/-- The events `Mount` emits after a successful `Create`, for the driver's
`Mount` response `m`. -/
def mountMountEvents (h : Host L E) (logger : L) (pluginId volumeId : String)
    (m : MountResponse) : List (Event L E Opts) :=
  [ Event.log logger .Debug "calling-docker-driver-with-mount-request" none
      [("pluginId", .str pluginId), ("mountRequest", .mountRequest { Name := volumeId })],
    Event.call (DriverCall.mount (h.NewHttpDriverEnv logger Context.TODO) { Name := volumeId }),
    Event.log logger .Debug "response-from-docker-driver" none [("response", .mountResponse m)] ]
  ++ (if strings.HasPrefix m.Mountpoint "/var/vcap/data" then []
      else [ Event.log logger .Info "invalid-mountpath" none
              [("detail", .str ("Invalid or dangerous mountpath " ++ m.Mountpoint
                  ++ " outside of /var/vcap/data"))] ])

/-- The TLS configuration `Matches` hands to the driver for a plugin spec's
`TLSConfig`: nil for nil, otherwise a fresh record with the four fields copied. -/
def copiedTLS : Option volman.TLSConfig → Option voldriver.TLSConfig
  | some t =>
    some { InsecureSkipVerify := t.InsecureSkipVerify,
           CAFile := t.CAFile,
           CertFile := t.CertFile,
           KeyFile := t.KeyFile }
  | none => none

/-- The specification's reading of "lies under the directory `dir`": the path
is that directory, or a path below it. -/
def specLiesUnder (dir p : String) : Bool :=
  p == dir || strings.HasPrefix p (dir ++ "/")

theorem Mount_eq_of_create_err (h : Host L E) (d : DockerDriverPlugin σ L E Opts)
    (drv : Driver σ E Opts) (logger : L) (pluginId volumeId : String) (opts : Opts)
    (w : World σ L E Opts) (hd : asDriver d.DockerDriver = some drv)
    (hc : (drv.Create (h.NewHttpDriverEnv logger Context.TODO)
      { Name := volumeId, Opts := opts } w.driver).1.Err ≠ "") :
    DockerDriverPlugin.Mount h d logger pluginId volumeId opts w =
      { ret := Outcome.ret ({ Path := "" }, some { msg := (drv.Create
          (h.NewHttpDriverEnv logger Context.TODO)
          { Name := volumeId, Opts := opts } w.driver).1.Err }),
        self := d,
        world := { driver := (drv.Create (h.NewHttpDriverEnv logger Context.TODO)
                     { Name := volumeId, Opts := opts } w.driver).2,
                   trace := w.trace ++ mountCreateEvents h logger pluginId volumeId opts } } := by
  simp only [DockerDriverPlugin.Mount, hd, World.callCreate, World.log, mountCreateEvents,
    errors.New]
  rw [if_pos hc]
  simp

theorem Mount_eq_of_create_ok (h : Host L E) (d : DockerDriverPlugin σ L E Opts)
    (drv : Driver σ E Opts) (logger : L) (pluginId volumeId : String) (opts : Opts)
    (w : World σ L E Opts) (hd : asDriver d.DockerDriver = some drv)
    (hc : (drv.Create (h.NewHttpDriverEnv logger Context.TODO)
      { Name := volumeId, Opts := opts } w.driver).1.Err = "") :
    DockerDriverPlugin.Mount h d logger pluginId volumeId opts w =
      { ret :=
          if (drv.Mount (h.NewHttpDriverEnv logger Context.TODO) { Name := volumeId }
                (drv.Create (h.NewHttpDriverEnv logger Context.TODO)
                  { Name := volumeId, Opts := opts } w.driver).2).1.Err ≠ "" then
            Outcome.ret ({ Path := "" }, some { msg :=
              (drv.Mount (h.NewHttpDriverEnv logger Context.TODO) { Name := volumeId }
                (drv.Create (h.NewHttpDriverEnv logger Context.TODO)
                  { Name := volumeId, Opts := opts } w.driver).2).1.Err })
          else
            Outcome.ret ({ Path :=
              (drv.Mount (h.NewHttpDriverEnv logger Context.TODO) { Name := volumeId }
                (drv.Create (h.NewHttpDriverEnv logger Context.TODO)
                  { Name := volumeId, Opts := opts } w.driver).2).1.Mountpoint }, none),
        self := d,
        world :=
          { driver :=
              (drv.Mount (h.NewHttpDriverEnv logger Context.TODO) { Name := volumeId }
                (drv.Create (h.NewHttpDriverEnv logger Context.TODO)
                  { Name := volumeId, Opts := opts } w.driver).2).2,
            trace := w.trace ++ mountCreateEvents h logger pluginId volumeId opts
              ++ mountMountEvents h logger pluginId volumeId
                (drv.Mount (h.NewHttpDriverEnv logger Context.TODO) { Name := volumeId }
                  (drv.Create (h.NewHttpDriverEnv logger Context.TODO)
                    { Name := volumeId, Opts := opts } w.driver).2).1 } } := by
  simp only [DockerDriverPlugin.Mount, hd, World.callCreate, World.callMount, World.log,
    mountCreateEvents, mountMountEvents, errors.New]
  rw [if_neg (not_not.mpr hc)]
  by_cases hp : strings.HasPrefix
      (drv.Mount (h.NewHttpDriverEnv logger Context.TODO) { Name := volumeId }
        (drv.Create (h.NewHttpDriverEnv logger Context.TODO)
          { Name := volumeId, Opts := opts } w.driver).2).1.Mountpoint "/var/vcap/data" = true
  · by_cases hm : (drv.Mount (h.NewHttpDriverEnv logger Context.TODO) { Name := volumeId }
        (drv.Create (h.NewHttpDriverEnv logger Context.TODO)
          { Name := volumeId, Opts := opts } w.driver).2).1.Err = ""
    · simp [hp, hm]
    · simp [hp, hm]
  · by_cases hm : (drv.Mount (h.NewHttpDriverEnv logger Context.TODO) { Name := volumeId }
        (drv.Create (h.NewHttpDriverEnv logger Context.TODO)
          { Name := volumeId, Opts := opts } w.driver).2).1.Err = ""
    · simp [hp, hm]
    · simp [hp, hm]

theorem driverCalls_append (a b : List (Event L E Opts)) :
    driverCalls (a ++ b) = driverCalls a ++ driverCalls b := by
  simp [driverCalls]

theorem driverCalls_mountCreateEvents (h : Host L E) (logger : L) (pluginId volumeId : String)
    (opts : Opts) :
    driverCalls (mountCreateEvents h logger pluginId volumeId opts) =
      [DriverCall.create (h.NewHttpDriverEnv logger Context.TODO)
        { Name := volumeId, Opts := opts }] := by
  simp [driverCalls, mountCreateEvents]

theorem driverCalls_mountMountEvents (h : Host L E) (logger : L) (pluginId volumeId : String)
    (m : MountResponse) :
    driverCalls (mountMountEvents h logger pluginId volumeId m : List (Event L E Opts)) =
      [DriverCall.mount (h.NewHttpDriverEnv logger Context.TODO) { Name := volumeId }] := by
  unfold mountMountEvents
  split <;> simp [driverCalls]

end

end driverhttp

/-! ## `Mount`: the claims -/

namespace driverhttp

open voldriver

section
variable {σ L E Opts : Type}

/-- C1: `Mount` first calls the driver's `Create` with
`CreateRequest{Name: volumeId, Opts: opts}`; when that response carries a
non-empty `Err`, `Create` is the only driver call (the driver's `Mount` is not
invoked, the driver is left in the state `Create` produced) and the adapter
returns the empty `MountResponse` with an error whose message is that `Err`. -/
theorem Mount_create_first_and_error_short_circuits (h : Host L E)
    (d : DockerDriverPlugin σ L E Opts) (drv : Driver σ E Opts) (logger : L)
    (pluginId volumeId : String) (opts : Opts) (w : World σ L E Opts)
    (hd : asDriver d.DockerDriver = some drv) :
    (∃ rest, driverCalls (DockerDriverPlugin.Mount h d logger pluginId volumeId opts w).world.trace
        = driverCalls w.trace ++ DriverCall.create (h.NewHttpDriverEnv logger Context.TODO)
            { Name := volumeId, Opts := opts } :: rest) ∧
    ((drv.Create (h.NewHttpDriverEnv logger Context.TODO)
        { Name := volumeId, Opts := opts } w.driver).1.Err ≠ "" →
      driverCalls (DockerDriverPlugin.Mount h d logger pluginId volumeId opts w).world.trace
        = driverCalls w.trace ++ [DriverCall.create (h.NewHttpDriverEnv logger Context.TODO)
            { Name := volumeId, Opts := opts }] ∧
      (DockerDriverPlugin.Mount h d logger pluginId volumeId opts w).world.driver
        = (drv.Create (h.NewHttpDriverEnv logger Context.TODO)
            { Name := volumeId, Opts := opts } w.driver).2 ∧
      (DockerDriverPlugin.Mount h d logger pluginId volumeId opts w).ret
        = Outcome.ret ({ Path := "" }, some { msg := (drv.Create
            (h.NewHttpDriverEnv logger Context.TODO)
            { Name := volumeId, Opts := opts } w.driver).1.Err })) := by
  constructor
  · by_cases hc : (drv.Create (h.NewHttpDriverEnv logger Context.TODO)
        { Name := volumeId, Opts := opts } w.driver).1.Err = ""
    · refine ⟨[DriverCall.mount (h.NewHttpDriverEnv logger Context.TODO)
        { Name := volumeId }], ?_⟩
      rw [Mount_eq_of_create_ok h d drv logger pluginId volumeId opts w hd hc]
      simp only [driverCalls_append, driverCalls_mountCreateEvents,
        driverCalls_mountMountEvents, List.append_assoc, List.singleton_append]
    · refine ⟨[], ?_⟩
      rw [Mount_eq_of_create_err h d drv logger pluginId volumeId opts w hd hc]
      simp only [driverCalls_append, driverCalls_mountCreateEvents]
  · intro hc
    rw [Mount_eq_of_create_err h d drv logger pluginId volumeId opts w hd hc]
    simp only [driverCalls_append, driverCalls_mountCreateEvents, and_self]

/-- Witness for C1: a plain driver whose `Create` answers `Err = "no space"`. -/
theorem Mount_create_first_and_error_short_circuits_witness :
    asDriver (fixture.plugin "no space" "" "/var/vcap/data/v" "").DockerDriver
      = some (fixture.driver "no space" "" "/var/vcap/data/v" "") ∧
    driverCalls (DockerDriverPlugin.Mount fixture.host
        (fixture.plugin "no space" "" "/var/vcap/data/v" "") "log" "plugin-1" "vol-1"
        [("size", "1G")] fixture.world0).world.trace
      = [DriverCall.create ("log", Context.TODO) { Name := "vol-1", Opts := [("size", "1G")] }] ∧
    (DockerDriverPlugin.Mount fixture.host
        (fixture.plugin "no space" "" "/var/vcap/data/v" "") "log" "plugin-1" "vol-1"
        [("size", "1G")] fixture.world0).world.driver = 1 ∧
    (DockerDriverPlugin.Mount fixture.host
        (fixture.plugin "no space" "" "/var/vcap/data/v" "") "log" "plugin-1" "vol-1"
        [("size", "1G")] fixture.world0).ret
      = Outcome.ret ({ Path := "" }, some { msg := "no space" }) :=
  ⟨rfl, (Mount_create_first_and_error_short_circuits fixture.host
      (fixture.plugin "no space" "" "/var/vcap/data/v" "")
      (fixture.driver "no space" "" "/var/vcap/data/v" "") "log" "plugin-1" "vol-1"
      [("size", "1G")] fixture.world0 rfl).2 (by decide)⟩

end

end driverhttp

namespace driverhttp

open voldriver

section
variable {σ L E Opts : Type}

/-- C2: when the driver's `Create` response has an empty `Err` and its `Mount`
response (for `MountRequest{Name: volumeId}`) has a non-empty `Err`, `Mount`
returns an error whose message is that `Err` together with a `MountResponse`
whose `Path` is empty, whatever `Mountpoint` the driver reported. -/
theorem Mount_mount_error_returned (h : Host L E) (d : DockerDriverPlugin σ L E Opts)
    (drv : Driver σ E Opts) (logger : L) (pluginId volumeId : String) (opts : Opts)
    (w : World σ L E Opts) (hd : asDriver d.DockerDriver = some drv)
    (hc : (drv.Create (h.NewHttpDriverEnv logger Context.TODO)
      { Name := volumeId, Opts := opts } w.driver).1.Err = "")
    (hm : (drv.Mount (h.NewHttpDriverEnv logger Context.TODO) { Name := volumeId }
      (drv.Create (h.NewHttpDriverEnv logger Context.TODO)
        { Name := volumeId, Opts := opts } w.driver).2).1.Err ≠ "") :
    (DockerDriverPlugin.Mount h d logger pluginId volumeId opts w).ret
      = Outcome.ret ({ Path := "" }, some { msg :=
          (drv.Mount (h.NewHttpDriverEnv logger Context.TODO) { Name := volumeId }
            (drv.Create (h.NewHttpDriverEnv logger Context.TODO)
              { Name := volumeId, Opts := opts } w.driver).2).1.Err }) ∧
    driverCalls (DockerDriverPlugin.Mount h d logger pluginId volumeId opts w).world.trace
      = driverCalls w.trace ++
          [DriverCall.create (h.NewHttpDriverEnv logger Context.TODO)
             { Name := volumeId, Opts := opts },
           DriverCall.mount (h.NewHttpDriverEnv logger Context.TODO) { Name := volumeId }] := by
  rw [Mount_eq_of_create_ok h d drv logger pluginId volumeId opts w hd hc]
  refine ⟨if_pos hm, ?_⟩
  simp only [driverCalls_append, driverCalls_mountCreateEvents, driverCalls_mountMountEvents,
    List.append_assoc, List.singleton_append]

/-- Witness for C2: `Create` succeeds, `Mount` answers `Err = "mount failed"`
while still reporting a mountpoint. -/
theorem Mount_mount_error_returned_witness :
    (DockerDriverPlugin.Mount fixture.host
        (fixture.plugin "" "mount failed" "/var/vcap/data/v" "") "log" "plugin-1" "vol-1"
        [] fixture.world0).ret
      = Outcome.ret ({ Path := "" }, some { msg := "mount failed" }) :=
  (Mount_mount_error_returned fixture.host
      (fixture.plugin "" "mount failed" "/var/vcap/data/v" "")
      (fixture.driver "" "mount failed" "/var/vcap/data/v" "") "log" "plugin-1" "vol-1"
      [] fixture.world0 rfl rfl (by decide)).1

/-- C3: when the driver's `Create` and `Mount` responses both have an empty
`Err`, `Mount` returns a nil error and a `MountResponse` whose `Path` is the
driver's `Mountpoint`, for every `Mountpoint` string: the check against
`/var/vcap/data` never makes the call fail. -/
theorem Mount_success_returns_mountpoint (h : Host L E) (d : DockerDriverPlugin σ L E Opts)
    (drv : Driver σ E Opts) (logger : L) (pluginId volumeId : String) (opts : Opts)
    (w : World σ L E Opts) (hd : asDriver d.DockerDriver = some drv)
    (hc : (drv.Create (h.NewHttpDriverEnv logger Context.TODO)
      { Name := volumeId, Opts := opts } w.driver).1.Err = "")
    (hm : (drv.Mount (h.NewHttpDriverEnv logger Context.TODO) { Name := volumeId }
      (drv.Create (h.NewHttpDriverEnv logger Context.TODO)
        { Name := volumeId, Opts := opts } w.driver).2).1.Err = "") :
    (DockerDriverPlugin.Mount h d logger pluginId volumeId opts w).ret
      = Outcome.ret ({ Path :=
          (drv.Mount (h.NewHttpDriverEnv logger Context.TODO) { Name := volumeId }
            (drv.Create (h.NewHttpDriverEnv logger Context.TODO)
              { Name := volumeId, Opts := opts } w.driver).2).1.Mountpoint }, none) := by
  rw [Mount_eq_of_create_ok h d drv logger pluginId volumeId opts w hd hc]
  exact if_neg (not_not.mpr hm)

/-- Witness for C3: the driver reports `Mountpoint = "/tmp/evil"`, outside
`/var/vcap/data`, and the call succeeds with that path. -/
theorem Mount_success_returns_mountpoint_witness :
    strings.HasPrefix "/tmp/evil" "/var/vcap/data" = false ∧
    (DockerDriverPlugin.Mount fixture.host (fixture.plugin "" "" "/tmp/evil" "") "log"
        "plugin-1" "vol-1" [] fixture.world0).ret
      = Outcome.ret ({ Path := "/tmp/evil" }, none) :=
  ⟨by decide, Mount_success_returns_mountpoint fixture.host (fixture.plugin "" "" "/tmp/evil" "")
      (fixture.driver "" "" "/tmp/evil" "") "log" "plugin-1" "vol-1" [] fixture.world0
      rfl rfl rfl⟩

/-- C9 (evaluation at the failing input): for `Mountpoint = "/var/vcap/database"`,
which is neither `/var/vcap/data` nor a path below it, `Mount` succeeds and no
`"invalid-mountpath"` record is written; for `"/tmp/evil"` the record is written. -/
theorem Mount_invalid_mountpath_misses_sibling_directory :
    specLiesUnder sanctionedDir "/var/vcap/database" = false ∧
    (DockerDriverPlugin.Mount fixture.host (fixture.plugin "" "" "/var/vcap/database" "") "log"
        "plugin-1" "vol-1" [] fixture.world0).ret
      = Outcome.ret ({ Path := "/var/vcap/database" }, none) ∧
    "invalid-mountpath" ∉ loggedActions
      (DockerDriverPlugin.Mount fixture.host (fixture.plugin "" "" "/var/vcap/database" "")
        "log" "plugin-1" "vol-1" [] fixture.world0).world.trace ∧
    "invalid-mountpath" ∈ loggedActions
      (DockerDriverPlugin.Mount fixture.host (fixture.plugin "" "" "/tmp/evil" "")
        "log" "plugin-1" "vol-1" [] fixture.world0).world.trace := by
  decide

/-- C10: over a call of `Mount` the driver calls the adapter issues are
`[Create]` (when `Create` answered an error) or `[Create, Mount]` (otherwise,
whether `Mount` then fails or succeeds), and the driver is left in exactly the
state those calls produce: the state after `Create` alone, or the state after
`Create` followed by `Mount`.  The driver's `Unmount` and `Remove` are never
invoked, so a failed `Mount` is reported without any rollback of the volume. -/
theorem Mount_driver_calls_create_then_mount (h : Host L E)
    (d : DockerDriverPlugin σ L E Opts) (drv : Driver σ E Opts) (logger : L)
    (pluginId volumeId : String) (opts : Opts) (w : World σ L E Opts)
    (hd : asDriver d.DockerDriver = some drv) :
    ∃ new : List (Event L E Opts),
      (DockerDriverPlugin.Mount h d logger pluginId volumeId opts w).world.trace
        = w.trace ++ new ∧
      (((drv.Create (h.NewHttpDriverEnv logger Context.TODO)
            { Name := volumeId, Opts := opts } w.driver).1.Err ≠ "" ∧
          driverCalls new = [DriverCall.create (h.NewHttpDriverEnv logger Context.TODO)
            { Name := volumeId, Opts := opts }] ∧
          (DockerDriverPlugin.Mount h d logger pluginId volumeId opts w).world.driver
            = (drv.Create (h.NewHttpDriverEnv logger Context.TODO)
                { Name := volumeId, Opts := opts } w.driver).2 ∧
          (DockerDriverPlugin.Mount h d logger pluginId volumeId opts w).ret
            = Outcome.ret ({ Path := "" }, some { msg := (drv.Create
                (h.NewHttpDriverEnv logger Context.TODO)
                { Name := volumeId, Opts := opts } w.driver).1.Err })) ∨
        ((drv.Create (h.NewHttpDriverEnv logger Context.TODO)
            { Name := volumeId, Opts := opts } w.driver).1.Err = "" ∧
          driverCalls new = [DriverCall.create (h.NewHttpDriverEnv logger Context.TODO)
              { Name := volumeId, Opts := opts },
            DriverCall.mount (h.NewHttpDriverEnv logger Context.TODO) { Name := volumeId }] ∧
          (DockerDriverPlugin.Mount h d logger pluginId volumeId opts w).world.driver
            = (drv.Mount (h.NewHttpDriverEnv logger Context.TODO) { Name := volumeId }
                (drv.Create (h.NewHttpDriverEnv logger Context.TODO)
                  { Name := volumeId, Opts := opts } w.driver).2).2 ∧
          (DockerDriverPlugin.Mount h d logger pluginId volumeId opts w).ret
            = if (drv.Mount (h.NewHttpDriverEnv logger Context.TODO) { Name := volumeId }
                  (drv.Create (h.NewHttpDriverEnv logger Context.TODO)
                    { Name := volumeId, Opts := opts } w.driver).2).1.Err ≠ "" then
                Outcome.ret ({ Path := "" }, some { msg :=
                  (drv.Mount (h.NewHttpDriverEnv logger Context.TODO) { Name := volumeId }
                    (drv.Create (h.NewHttpDriverEnv logger Context.TODO)
                      { Name := volumeId, Opts := opts } w.driver).2).1.Err })
              else
                Outcome.ret ({ Path :=
                  (drv.Mount (h.NewHttpDriverEnv logger Context.TODO) { Name := volumeId }
                    (drv.Create (h.NewHttpDriverEnv logger Context.TODO)
                      { Name := volumeId, Opts := opts } w.driver).2).1.Mountpoint }, none))) ∧
      (∀ env req, DriverCall.unmount env req ∉ driverCalls new) ∧
      (∀ env req, DriverCall.remove env req ∉ driverCalls new) := by
  by_cases hc : (drv.Create (h.NewHttpDriverEnv logger Context.TODO)
      { Name := volumeId, Opts := opts } w.driver).1.Err = ""
  · refine ⟨mountCreateEvents h logger pluginId volumeId opts
        ++ mountMountEvents h logger pluginId volumeId
          (drv.Mount (h.NewHttpDriverEnv logger Context.TODO) { Name := volumeId }
            (drv.Create (h.NewHttpDriverEnv logger Context.TODO)
              { Name := volumeId, Opts := opts } w.driver).2).1, ?_, ?_, ?_, ?_⟩
    · rw [Mount_eq_of_create_ok h d drv logger pluginId volumeId opts w hd hc,
        List.append_assoc]
    · right
      refine ⟨hc, ?_, ?_, ?_⟩
      · simp only [driverCalls_append, driverCalls_mountCreateEvents,
          driverCalls_mountMountEvents, List.singleton_append]
      · rw [Mount_eq_of_create_ok h d drv logger pluginId volumeId opts w hd hc]
      · rw [Mount_eq_of_create_ok h d drv logger pluginId volumeId opts w hd hc]
    · intro env req
      simp [driverCalls_append, driverCalls_mountCreateEvents, driverCalls_mountMountEvents]
    · intro env req
      simp [driverCalls_append, driverCalls_mountCreateEvents, driverCalls_mountMountEvents]
  · refine ⟨mountCreateEvents h logger pluginId volumeId opts, ?_, ?_, ?_, ?_⟩
    · rw [Mount_eq_of_create_err h d drv logger pluginId volumeId opts w hd hc]
    · left
      refine ⟨hc, driverCalls_mountCreateEvents h logger pluginId volumeId opts, ?_, ?_⟩
      · rw [Mount_eq_of_create_err h d drv logger pluginId volumeId opts w hd hc]
      · rw [Mount_eq_of_create_err h d drv logger pluginId volumeId opts w hd hc]
    · intro env req
      simp [driverCalls_mountCreateEvents]
    · intro env req
      simp [driverCalls_mountCreateEvents]

/-- Witness for C10: `Create` succeeds and `Mount` fails.  The driver received
exactly two calls (its call counter stands at 2), the adapter reports the
`Mount` error, and the emitted events hold `Create`, `Mount` and nothing that
undoes the `Create`. -/
theorem Mount_driver_calls_create_then_mount_witness :
    ∃ new : List (Event String (String × Context) (List (String × String))),
      (DockerDriverPlugin.Mount fixture.host (fixture.plugin "" "mount failed" "" "") "log"
        "plugin-1" "vol-1" [] fixture.world0).world.trace = fixture.world0.trace ++ new ∧
      driverCalls new
        = [DriverCall.create ("log", Context.TODO) { Name := "vol-1", Opts := [] },
           DriverCall.mount ("log", Context.TODO) { Name := "vol-1" }] ∧
      (DockerDriverPlugin.Mount fixture.host (fixture.plugin "" "mount failed" "" "") "log"
        "plugin-1" "vol-1" [] fixture.world0).world.driver = 2 ∧
      (DockerDriverPlugin.Mount fixture.host (fixture.plugin "" "mount failed" "" "") "log"
        "plugin-1" "vol-1" [] fixture.world0).ret
        = Outcome.ret ({ Path := "" }, some { msg := "mount failed" }) ∧
      (∀ env req, DriverCall.unmount env req ∉ driverCalls new) ∧
      (∀ env req, DriverCall.remove env req ∉ driverCalls new) :=
  (Mount_driver_calls_create_then_mount fixture.host (fixture.plugin "" "mount failed" "" "")
      (fixture.driver "" "mount failed" "" "") "log" "plugin-1" "vol-1" [] fixture.world0
      rfl).imp (fun _ hn =>
    ⟨hn.1,
     hn.2.1.elim (fun hl => absurd rfl hl.1) (fun hr => hr.2.1),
     hn.2.1.elim (fun hl => absurd rfl hl.1) (fun hr => hr.2.2.1),
     hn.2.1.elim (fun hl => absurd rfl hl.1) (fun hr => hr.2.2.2),
     hn.2.2.1, hn.2.2.2⟩)

end

end driverhttp

/-! ## `Unmount` -/

namespace driverhttp

open voldriver

section
variable {σ L E Opts : Type}

/-- C6: `Unmount` calls the driver's `Unmount` once, with
`UnmountRequest{Name: volumeId}`, and makes no other driver call; it returns an
error whose message is the response's `Err` when that is non-empty, and nil
exactly when it is empty; the adapter's `DockerDriver` field is unchanged. -/
theorem Unmount_single_call_and_error (h : Host L E) (d : DockerDriverPlugin σ L E Opts)
    (drv : Driver σ E Opts) (logger : L) (pluginId volumeId : String) (w : World σ L E Opts)
    (hd : asDriver d.DockerDriver = some drv) :
    driverCalls (DockerDriverPlugin.Unmount h d logger pluginId volumeId w).world.trace
      = driverCalls w.trace ++
          [DriverCall.unmount (h.NewHttpDriverEnv logger Context.TODO) { Name := volumeId }] ∧
    (DockerDriverPlugin.Unmount h d logger pluginId volumeId w).world.driver
      = (drv.Unmount (h.NewHttpDriverEnv logger Context.TODO)
          { Name := volumeId } w.driver).2 ∧
    ((drv.Unmount (h.NewHttpDriverEnv logger Context.TODO)
          { Name := volumeId } w.driver).1.Err ≠ "" →
      (DockerDriverPlugin.Unmount h d logger pluginId volumeId w).ret
        = Outcome.ret (some { msg := (drv.Unmount (h.NewHttpDriverEnv logger Context.TODO)
            { Name := volumeId } w.driver).1.Err })) ∧
    ((DockerDriverPlugin.Unmount h d logger pluginId volumeId w).ret = Outcome.ret none ↔
      (drv.Unmount (h.NewHttpDriverEnv logger Context.TODO)
          { Name := volumeId } w.driver).1.Err = "") ∧
    (DockerDriverPlugin.Unmount h d logger pluginId volumeId w).self = d := by
  by_cases hu : (drv.Unmount (h.NewHttpDriverEnv logger Context.TODO)
      { Name := volumeId } w.driver).1.Err = ""
  · simp [DockerDriverPlugin.Unmount, hd, World.callUnmount, World.log, driverCalls, hu]
  · simp [DockerDriverPlugin.Unmount, hd, World.callUnmount, World.log, driverCalls, hu,
      errors.New]

/-- Witness for C6: the driver answers `Err = "volume busy"`. -/
theorem Unmount_single_call_and_error_witness :
    (DockerDriverPlugin.Unmount fixture.host (fixture.plugin "" "" "" "volume busy") "log"
        "plugin-1" "vol-1" fixture.world0).ret
      = Outcome.ret (some { msg := "volume busy" }) ∧
    driverCalls (DockerDriverPlugin.Unmount fixture.host (fixture.plugin "" "" "" "volume busy")
        "log" "plugin-1" "vol-1" fixture.world0).world.trace
      = [DriverCall.unmount ("log", Context.TODO) { Name := "vol-1" }] ∧
    (DockerDriverPlugin.Unmount fixture.host (fixture.plugin "" "" "" "volume busy") "log"
        "plugin-1" "vol-1" fixture.world0).self = fixture.plugin "" "" "" "volume busy" :=
  ⟨(Unmount_single_call_and_error fixture.host (fixture.plugin "" "" "" "volume busy")
      (fixture.driver "" "" "" "volume busy") "log" "plugin-1" "vol-1" fixture.world0
      rfl).2.2.1 (by decide),
   (Unmount_single_call_and_error fixture.host (fixture.plugin "" "" "" "volume busy")
      (fixture.driver "" "" "" "volume busy") "log" "plugin-1" "vol-1" fixture.world0 rfl).1,
   (Unmount_single_call_and_error fixture.host (fixture.plugin "" "" "" "volume busy")
      (fixture.driver "" "" "" "volume busy") "log" "plugin-1" "vol-1" fixture.world0
      rfl).2.2.2.2⟩

end

end driverhttp

/-! ## `Matches` -/

namespace driverhttp

open voldriver

section
variable {σ L E Opts : Type}

theorem Matches_eq_of_matchable (h : Host L E) (dw : DockerDriverPlugin σ L E Opts)
    (m : MatchableDriver σ L E Opts) (logger : L) (pluginSpec : volman.PluginSpec)
    (w : World σ L E Opts) (hm : asMatchableDriver dw.DockerDriver = some m) :
    DockerDriverPlugin.Matches h dw logger pluginSpec w =
      { ret := (m.Matches (h.Session logger "matches") pluginSpec.Address
                  (copiedTLS pluginSpec.TLSConfig) w.driver).1,
        self := dw,
        world :=
          { driver := (m.Matches (h.Session logger "matches") pluginSpec.Address
                        (copiedTLS pluginSpec.TLSConfig) w.driver).2,
            trace := w.trace ++
              [ Event.log (h.Session logger "matches") .Info "start" none [],
                Event.log (h.Session logger "matches") .Info "matches" none
                  [("is-matchable", .bool true)],
                Event.call (DriverCall.matches_ (h.Session logger "matches") pluginSpec.Address
                  (copiedTLS pluginSpec.TLSConfig)),
                Event.log (h.Session logger "matches") .Info "matches" none
                  [("matches", .bool (m.Matches (h.Session logger "matches") pluginSpec.Address
                    (copiedTLS pluginSpec.TLSConfig) w.driver).1)],
                Event.log (h.Session logger "matches") .Info "end" none [] ] } } := by
  cases hs : pluginSpec.TLSConfig <;>
    simp [DockerDriverPlugin.Matches, hm, hs, World.callMatches, World.log, copiedTLS]

theorem Matches_eq_of_not_matchable (h : Host L E) (dw : DockerDriverPlugin σ L E Opts)
    (logger : L) (pluginSpec : volman.PluginSpec) (w : World σ L E Opts)
    (hm : asMatchableDriver dw.DockerDriver = none) :
    DockerDriverPlugin.Matches h dw logger pluginSpec w =
      { ret := false,
        self := dw,
        world :=
          { driver := w.driver,
            trace := w.trace ++
              [ Event.log (h.Session logger "matches") .Info "start" none [],
                Event.log (h.Session logger "matches") .Info "matches" none
                  [("is-matchable", .bool false)],
                Event.log (h.Session logger "matches") .Info "matches" none
                  [("matches", .bool false)],
                Event.log (h.Session logger "matches") .Info "end" none [] ] } } := by
  simp [DockerDriverPlugin.Matches, hm, World.log]

end

end driverhttp

namespace driverhttp

open voldriver

section
variable {σ L E Opts : Type}

/-- C4: when the wrapped driver does not implement `MatchableDriver`, `Matches`
returns false for every address and every TLS configuration (nil or not), and
the driver is not called: no driver call is added to the trace and the driver's
state is untouched.  This holds for `DockerDriverPlugin.Matches` and for
`driverWrapper.Matches`. -/
theorem Matches_false_without_capability (h : Host L E) (dp : DockerDriverPlugin σ L E Opts)
    (dw : driverWrapper σ L E Opts) (logger : L) (pluginSpec : volman.PluginSpec)
    (address : String) (tlsConfig : Option voldriver.TLSConfig) (w : World σ L E Opts)
    (hp : asMatchableDriver dp.DockerDriver = none) (hw : asMatchableDriver dw.Driver = none) :
    ((DockerDriverPlugin.Matches h dp logger pluginSpec w).ret = false ∧
      driverCalls (DockerDriverPlugin.Matches h dp logger pluginSpec w).world.trace
        = driverCalls w.trace ∧
      (DockerDriverPlugin.Matches h dp logger pluginSpec w).world.driver = w.driver) ∧
    ((driverWrapper.Matches h.Session dw logger address tlsConfig w).ret = false ∧
      driverCalls (driverWrapper.Matches h.Session dw logger address tlsConfig w).world.trace
        = driverCalls w.trace ∧
      (driverWrapper.Matches h.Session dw logger address tlsConfig w).world.driver
        = w.driver) := by
  constructor
  · rw [Matches_eq_of_not_matchable h dp logger pluginSpec w hp]
    simp [driverCalls]
  · simp [driverWrapper.Matches, hw, World.log, driverCalls]

/-- Witness for C4: a plain driver, asked with a TLS configuration present. -/
theorem Matches_false_without_capability_witness :
    (DockerDriverPlugin.Matches fixture.host (fixture.plugin "" "" "" "") "log"
        { Name := "p", Address := "unix:///sock",
          TLSConfig := some { InsecureSkipVerify := true, CAFile := "ca", CertFile := "cert",
                              KeyFile := "key" } }
        fixture.world0).ret = false ∧
    (driverWrapper.Matches fixture.host.Session
        { Driver := some (.plain (fixture.driver "" "" "" "")) } "log" "unix:///sock" none
        fixture.world0).ret = false :=
  ⟨(Matches_false_without_capability fixture.host (fixture.plugin "" "" "" "")
      { Driver := some (.plain (fixture.driver "" "" "" "")) } "log"
      { Name := "p", Address := "unix:///sock",
        TLSConfig := some { InsecureSkipVerify := true, CAFile := "ca", CertFile := "cert",
                            KeyFile := "key" } }
      "unix:///sock" none fixture.world0 rfl rfl).1.1,
   (Matches_false_without_capability fixture.host (fixture.plugin "" "" "" "")
      { Driver := some (.plain (fixture.driver "" "" "" "")) } "log"
      { Name := "p", Address := "unix:///sock",
        TLSConfig := some { InsecureSkipVerify := true, CAFile := "ca", CertFile := "cert",
                            KeyFile := "key" } }
      "unix:///sock" none fixture.world0 rfl rfl).2.1⟩

/-- C5: for a driver that implements `MatchableDriver`, `DockerDriverPlugin.Matches`
invokes the driver's `Matches` on a nil TLS config when the plugin spec's
`TLSConfig` is nil, and in general on a TLS config that is non-nil exactly when
the spec's is: the call is recorded with that argument, and the adapter's
result and the driver's next state are those the driver's `Matches` yields on
it.  `driverWrapper.Matches` invokes the driver on the TLS config it was given. -/
theorem Matches_nil_tls_stays_nil (h : Host L E) (dp : DockerDriverPlugin σ L E Opts)
    (dw : driverWrapper σ L E Opts) (m m' : MatchableDriver σ L E Opts) (logger : L)
    (pluginSpec : volman.PluginSpec) (address : String)
    (tlsConfig : Option voldriver.TLSConfig) (w : World σ L E Opts)
    (hp : asMatchableDriver dp.DockerDriver = some m)
    (hw : asMatchableDriver dw.Driver = some m') :
    (pluginSpec.TLSConfig = none →
      driverCalls (DockerDriverPlugin.Matches h dp logger pluginSpec w).world.trace
        = driverCalls w.trace ++
            [DriverCall.matches_ (h.Session logger "matches") pluginSpec.Address none] ∧
      (DockerDriverPlugin.Matches h dp logger pluginSpec w).ret
        = (m.Matches (h.Session logger "matches") pluginSpec.Address none w.driver).1 ∧
      (DockerDriverPlugin.Matches h dp logger pluginSpec w).world.driver
        = (m.Matches (h.Session logger "matches") pluginSpec.Address none w.driver).2) ∧
    (∃ tls : Option voldriver.TLSConfig,
      driverCalls (DockerDriverPlugin.Matches h dp logger pluginSpec w).world.trace
        = driverCalls w.trace ++
            [DriverCall.matches_ (h.Session logger "matches") pluginSpec.Address tls] ∧
      (tls ≠ none ↔ pluginSpec.TLSConfig ≠ none) ∧
      (DockerDriverPlugin.Matches h dp logger pluginSpec w).ret
        = (m.Matches (h.Session logger "matches") pluginSpec.Address tls w.driver).1 ∧
      (DockerDriverPlugin.Matches h dp logger pluginSpec w).world.driver
        = (m.Matches (h.Session logger "matches") pluginSpec.Address tls w.driver).2) ∧
    (driverCalls (driverWrapper.Matches h.Session dw logger address tlsConfig w).world.trace
        = driverCalls w.trace ++
            [DriverCall.matches_ (h.Session logger "matches") address tlsConfig] ∧
      (driverWrapper.Matches h.Session dw logger address tlsConfig w).ret
        = (m'.Matches (h.Session logger "matches") address tlsConfig w.driver).1 ∧
      (driverWrapper.Matches h.Session dw logger address tlsConfig w).world.driver
        = (m'.Matches (h.Session logger "matches") address tlsConfig w.driver).2) := by
  refine ⟨fun hn => ?_, ⟨copiedTLS pluginSpec.TLSConfig, ?_, ?_, ?_, ?_⟩, ?_⟩
  · rw [Matches_eq_of_matchable h dp m logger pluginSpec w hp, hn]
    simp [driverCalls, copiedTLS]
  · rw [Matches_eq_of_matchable h dp m logger pluginSpec w hp]
    simp [driverCalls]
  · cases pluginSpec.TLSConfig <;> simp [copiedTLS]
  · rw [Matches_eq_of_matchable h dp m logger pluginSpec w hp]
  · rw [Matches_eq_of_matchable h dp m logger pluginSpec w hp]
  · simp [driverWrapper.Matches, hw, World.callMatches, World.log, driverCalls]

/-- Witness for C5: the matchable fixture, which matches only when it is handed
a nil TLS config, asked through a spec whose `TLSConfig` is nil: the call is
recorded with nil, the answer is `true`, and the driver counted one call. -/
theorem Matches_nil_tls_stays_nil_witness :
    driverCalls (DockerDriverPlugin.Matches fixture.host fixture.matchablePlugin "log"
        { Name := "p", Address := "unix:///sock", TLSConfig := none } fixture.world0).world.trace
      = [DriverCall.matches_ "log.matches" "unix:///sock" none] ∧
    (DockerDriverPlugin.Matches fixture.host fixture.matchablePlugin "log"
        { Name := "p", Address := "unix:///sock", TLSConfig := none } fixture.world0).ret
      = true ∧
    (DockerDriverPlugin.Matches fixture.host fixture.matchablePlugin "log"
        { Name := "p", Address := "unix:///sock", TLSConfig := none } fixture.world0).world.driver
      = 1 :=
  (Matches_nil_tls_stays_nil fixture.host fixture.matchablePlugin
      { Driver := some (.matchable fixture.matchable) } fixture.matchable fixture.matchable "log"
      { Name := "p", Address := "unix:///sock", TLSConfig := none } "unix:///sock" none
      fixture.world0 rfl rfl).1 rfl

/-- C8: for a driver that implements `MatchableDriver`, `DockerDriverPlugin.Matches`
calls the driver's `Matches` exactly once, with the spec's `Address` and, when
the spec's `TLSConfig` is non-nil, a TLS config whose four fields equal the
spec's; the adapter returns the boolean the driver returned. -/
theorem Matches_delegates_with_copied_tls (h : Host L E) (dp : DockerDriverPlugin σ L E Opts)
    (m : MatchableDriver σ L E Opts) (logger : L) (pluginSpec : volman.PluginSpec)
    (w : World σ L E Opts) (hp : asMatchableDriver dp.DockerDriver = some m) :
    ∃ tls : Option voldriver.TLSConfig,
      driverCalls (DockerDriverPlugin.Matches h dp logger pluginSpec w).world.trace
        = driverCalls w.trace ++
            [DriverCall.matches_ (h.Session logger "matches") pluginSpec.Address tls] ∧
      (∀ t, pluginSpec.TLSConfig = some t →
        ∃ t', tls = some t' ∧ t'.InsecureSkipVerify = t.InsecureSkipVerify ∧
          t'.CAFile = t.CAFile ∧ t'.CertFile = t.CertFile ∧ t'.KeyFile = t.KeyFile) ∧
      (DockerDriverPlugin.Matches h dp logger pluginSpec w).ret
        = (m.Matches (h.Session logger "matches") pluginSpec.Address tls w.driver).1 ∧
      (DockerDriverPlugin.Matches h dp logger pluginSpec w).world.driver
        = (m.Matches (h.Session logger "matches") pluginSpec.Address tls w.driver).2 := by
  refine ⟨copiedTLS pluginSpec.TLSConfig, ?_, ?_, ?_, ?_⟩
  · rw [Matches_eq_of_matchable h dp m logger pluginSpec w hp]
    simp [driverCalls]
  · intro t ht
    exact ⟨_, by rw [ht, copiedTLS], rfl, rfl, rfl, rfl⟩
  · rw [Matches_eq_of_matchable h dp m logger pluginSpec w hp]
  · rw [Matches_eq_of_matchable h dp m logger pluginSpec w hp]

/-- Witness for C8: the matchable fixture refuses an endpoint offered with TLS;
the adapter reports that answer after one call carrying the copied fields. -/
theorem Matches_delegates_with_copied_tls_witness :
    ∃ tls : Option voldriver.TLSConfig,
      driverCalls (DockerDriverPlugin.Matches fixture.host fixture.matchablePlugin "log"
          { Name := "p", Address := "unix:///sock",
            TLSConfig := some { InsecureSkipVerify := true, CAFile := "ca", CertFile := "cert",
                                KeyFile := "key" } } fixture.world0).world.trace
        = driverCalls fixture.world0.trace ++
            [DriverCall.matches_ "log.matches" "unix:///sock" tls] ∧
      (DockerDriverPlugin.Matches fixture.host fixture.matchablePlugin "log"
          { Name := "p", Address := "unix:///sock",
            TLSConfig := some { InsecureSkipVerify := true, CAFile := "ca", CertFile := "cert",
                                KeyFile := "key" } } fixture.world0).ret
        = (fixture.matchable.Matches "log.matches" "unix:///sock" tls 0).1 :=
  (Matches_delegates_with_copied_tls fixture.host fixture.matchablePlugin fixture.matchable "log"
      { Name := "p", Address := "unix:///sock",
        TLSConfig := some { InsecureSkipVerify := true, CAFile := "ca", CertFile := "cert",
                            KeyFile := "key" } } fixture.world0 rfl).imp
    (fun _ ht => ⟨ht.1, ht.2.2.1⟩)

end

end driverhttp

/-! ## The route table -/

namespace voldriver

/-- C7: `Routes` has exactly nine entries, their names pairwise distinct and
equal, in order, to the nine operation-name constants, so a lookup by any of
those names yields exactly one (method, path) pair; every method is `POST`;
`activate` maps to `/Plugin.Activate` and every other operation `X` to
`/VolumeDriver.X`. -/
theorem Routes_nine_distinct_post_entries :
    Routes.length = 9 ∧
    (Routes.map (fun r => r.Name)).Nodup ∧
    Routes.map (fun r => r.Name) = routeNames ∧
    routeNames = ["activate", "create", "get", "list", "mount", "path", "remove", "unmount",
      "capabilities"] ∧
    (∀ name ∈ routeNames, (lookup name).length = 1) ∧
    (∀ r ∈ Routes, r.Method = "POST") ∧
    lookup ActivateRoute = [("POST", "/Plugin.Activate")] ∧
    lookup CreateRoute = [("POST", "/VolumeDriver.Create")] ∧
    lookup GetRoute = [("POST", "/VolumeDriver.Get")] ∧
    lookup ListRoute = [("POST", "/VolumeDriver.List")] ∧
    lookup MountRoute = [("POST", "/VolumeDriver.Mount")] ∧
    lookup PathRoute = [("POST", "/VolumeDriver.Path")] ∧
    lookup RemoveRoute = [("POST", "/VolumeDriver.Remove")] ∧
    lookup UnmountRoute = [("POST", "/VolumeDriver.Unmount")] ∧
    lookup CapabilitiesRoute = [("POST", "/VolumeDriver.Capabilities")] := by
  refine ⟨by decide, by decide, by decide, by decide, by decide, by decide, by decide,
    by decide, by decide, by decide, by decide, by decide, by decide, by decide, by decide⟩

end voldriver

/-! ## What the mountpoint check of `Mount` does decide -/

namespace driverhttp

open voldriver

section
variable {σ L E Opts : Type}

/-- A path that is the sanctioned directory or lies below it begins with the
characters `/var/vcap/data`. -/
theorem HasPrefix_of_specLiesUnder (p : String)
    (hp : specLiesUnder sanctionedDir p = true) :
    strings.HasPrefix p "/var/vcap/data" = true := by
  simp only [specLiesUnder, Bool.or_eq_true, beq_iff_eq] at hp
  rcases hp with rfl | hp
  · simp [strings.HasPrefix, sanctionedDir]
  · simp only [strings.HasPrefix, List.isPrefixOf_iff_prefix] at hp ⊢
    exact List.IsPrefix.trans ⟨['/'], rfl⟩ hp

/-- Whenever the driver's `Mount` is invoked, the `"invalid-mountpath"` record is
written exactly when the returned `Mountpoint` does not begin with the
characters `/var/vcap/data`, whatever the response's `Err`. -/
theorem Mount_invalid_mountpath_iff_not_HasPrefix (h : Host L E)
    (d : DockerDriverPlugin σ L E Opts) (drv : Driver σ E Opts) (logger : L)
    (pluginId volumeId : String) (opts : Opts) (w : World σ L E Opts)
    (hd : asDriver d.DockerDriver = some drv)
    (hc : (drv.Create (h.NewHttpDriverEnv logger Context.TODO)
      { Name := volumeId, Opts := opts } w.driver).1.Err = "") :
    ∃ new : List (Event L E Opts),
      (DockerDriverPlugin.Mount h d logger pluginId volumeId opts w).world.trace
        = w.trace ++ new ∧
      ("invalid-mountpath" ∈ loggedActions new ↔
        strings.HasPrefix
          (drv.Mount (h.NewHttpDriverEnv logger Context.TODO) { Name := volumeId }
            (drv.Create (h.NewHttpDriverEnv logger Context.TODO)
              { Name := volumeId, Opts := opts } w.driver).2).1.Mountpoint
          "/var/vcap/data" = false) := by
  refine ⟨mountCreateEvents h logger pluginId volumeId opts
      ++ mountMountEvents h logger pluginId volumeId
        (drv.Mount (h.NewHttpDriverEnv logger Context.TODO) { Name := volumeId }
          (drv.Create (h.NewHttpDriverEnv logger Context.TODO)
            { Name := volumeId, Opts := opts } w.driver).2).1, ?_, ?_⟩
  · rw [Mount_eq_of_create_ok h d drv logger pluginId volumeId opts w hd hc,
      List.append_assoc]
  · cases hp : strings.HasPrefix
        (drv.Mount (h.NewHttpDriverEnv logger Context.TODO) { Name := volumeId }
          (drv.Create (h.NewHttpDriverEnv logger Context.TODO)
            { Name := volumeId, Opts := opts } w.driver).2).1.Mountpoint "/var/vcap/data"
    · simp [loggedActions, mountCreateEvents, mountMountEvents, hp]
    · simp [loggedActions, mountCreateEvents, mountMountEvents, hp]

end

end driverhttp
